import Mathlib

/-!
Shallow embedding of the slizzy track-resolution pipeline
(src/slizzy/main.py and src/slizzy/slider/slider.py).

External I/O (HTTP requests, the google/beatport collaborators, the other
two adapters) is represented by scripted response values passed in as
arguments, so every definition is an executable function of its inputs.
Modules of the repository that are not present under src (tolerance,
util.string.fuzz_match, util.iterator.partition, track) are modelled from
the spec and marked as such in their doc comments.
-/

namespace Slizzy

/-- Size of a candidate file: value plus multiplier unit, as parsed by
fetch_info from the two lines of the info document. -/
structure Size where
  value : Nat
  mult : String
deriving Repr, DecidableEq

/-- Metadata fetched per entry by fetch_info: bitrate and size. -/
structure Info where
  bitrate : Nat
  size : Size
deriving Repr, DecidableEq

/-- One raw audio record of the JSON body returned by the slider search
endpoint (fields id, ext, duration, tit_art). -/
structure RawAudio where
  id : String
  ext : String
  duration : Nat
  tit_art : String
deriving Repr, DecidableEq

/-- One entry built by fetch from a raw audio record and its group key. -/
structure Entry where
  id : String
  ext_id : String
  key : String
  duration : Nat
  title : String
deriving Repr, DecidableEq

/-- Candidate produced by normalize: bitrate and size are none when the
metadata fetch for the entry failed. -/
structure Candidate where
  id : String
  title : String
  duration : Nat
  bitrate : Option Nat
  size : Option Size
  download : String
deriving Repr, DecidableEq

/-- Final source-agnostic result: name and link. -/
structure Download where
  name : String
  link : String
deriving Repr, DecidableEq

/-- A track as the adapters consume it, with its duration resolved. -/
structure Track where
  title : String
  query_string : String
  duration : Nat
deriving Repr, DecidableEq

/-- A track as main builds it: the duration is optional and a duration of
zero is falsy in the source, hence treated as unset. -/
structure TrackIn where
  title : String
  query_string : String
  duration : Option Nat
deriving Repr, DecidableEq

/-- Configuration constants read by the pipeline: the symmetric duration
tolerance window width and the fuzzy-match acceptance threshold. -/
structure Cfg where
  duration_delta : Nat
  fuzz_threshold : Nat
deriving Repr, DecidableEq

/-- Modelled from the spec: the tolerance module is absent from src.
Membership of a candidate duration in the closed interval
[target - delta, target + delta] around the target duration. -/
def tolerance.duration (cfg : Cfg) (target : Nat) (d : Nat) : Bool :=
  decide (target - cfg.duration_delta ≤ d) && decide (d ≤ target + cfg.duration_delta)

/-- Modelled from the spec: the tolerance module is absent from src.
Membership of a bitrate in the fixed acceptance interval of at least
128 kbps; zero is outside the interval. -/
def tolerance.bitrate (b : Nat) : Bool :=
  decide (128 ≤ b)

/-- Lower-cased, whitespace-split token list of a string; empty tokens are
dropped. -/
def tokens (s : String) : List String :=
  (s.toLower.splitOn " ").filter (fun t => t ≠ "")

/-- Modelled from the spec: util.string.fuzz_match is absent from src.
Token-set ratio style similarity, case- and whitespace-insensitive,
normalized to the range 0..100: the share of common tokens among all
tokens of both strings. Two strings with equal token sets score 100. -/
def fuzz_match (a b : String) : Nat :=
  let ta := (tokens a).dedup
  let tb := (tokens b).dedup
  let inter := ta.filter (fun t => t ∈ tb)
  let uni := ta ++ tb.filter (fun t => t ∉ ta)
  if uni.length = 0 then 100 else 100 * inter.length / uni.length

/-- One scripted response of the slider search endpoint, covering the cases
the source distinguishes: a non-200 status (raises HTTPError), an exception
from the client or the JSON decoder, an integer JSON body (the transient
error-code case the loop retries), and a well-formed body of keyed audio
groups. -/
inductive FetchResponse where
  | err (code : Nat)
  | raised (msg : String)
  | intBody (n : Int)
  | audios (groups : List (String × List RawAudio))
deriving Repr, DecidableEq

/-- Entries built from the audios groups of a well-formed body, flattening
each keyed group as the source comprehension does. -/
def mk_entries (groups : List (String × List RawAudio)) : List Entry :=
  groups.foldr
    (fun g acc =>
      g.2.map (fun a => { id := a.id, ext_id := a.ext, key := g.1,
                          duration := a.duration, title := a.tit_art }) ++ acc)
    []

/-- The fetch loop of the slider adapter over a scripted response list.
It retries while the body is an integer, raises on a non-200 status, and
returns the flattened entries of the first well-formed body. The second
component counts the attempts made (one GET per loop iteration); an
exhausted script stands for an interaction that never terminates and is
outside the modelled executions. -/
def fetch : List FetchResponse → Except String (List Entry) × Nat
  | [] => (Except.error "no response", 0)
  | FetchResponse.err c :: _ => (Except.error ("http code " ++ toString c ++ "."), 1)
  | FetchResponse.raised m :: _ => (Except.error m, 1)
  | FetchResponse.intBody _ :: rest =>
    let r := fetch rest
    (r.1, r.2 + 1)
  | FetchResponse.audios gs :: _ => (Except.ok (mk_entries gs), 1)

/-- Whether a search response is the transient case the fetch loop
retries: an integer JSON body. -/
def is_transient : FetchResponse → Bool
  | FetchResponse.intBody _ => true
  | _ => false

/-- Scripted response of the per-entry info endpoint: non-200 status
(warn and give up with no metadata), client exception (propagates), a body
whose lines fail the int or float parse (warn and give up), or a parsed
body carrying bitrate and size (a zero bitrate is the placeholder the loop
retries). -/
inductive InfoResponse where
  | err (code : Nat)
  | raised (msg : String)
  | parseFail
  | payload (bitrate : Nat) (size : Size)
deriving Repr, DecidableEq

/-- The fetch_info loop over a scripted response list: retries while the
parsed bitrate is zero, returns none on a non-200 status or a parse
failure, propagates a client exception, and returns the metadata on the
first nonzero parsed bitrate. An exhausted script is outside the modelled
executions. -/
def fetch_info : List InfoResponse → Except String (Option Info)
  | [] => Except.ok none
  | InfoResponse.err _ :: _ => Except.ok none
  | InfoResponse.raised m :: _ => Except.error m
  | InfoResponse.parseFail :: _ => Except.ok none
  | InfoResponse.payload b s :: rest =>
    if b = 0 then fetch_info rest else Except.ok (some { bitrate := b, size := s })

/-- Base url of the slider site. -/
def base_url : String := "http://slider.kz"

/-- Download link built by normalize for an entry. -/
def download_url (e : Entry) : String :=
  base_url ++ "/download/" ++ e.key ++ "/" ++ e.id ++ "/" ++ e.ext_id ++ ".mp3"

/-- Info link queried by normalize for an entry. -/
def info_url (e : Entry) : String :=
  base_url ++ "/info/" ++ toString e.duration ++ "/" ++ e.id ++ "/" ++ e.ext_id ++ "/" ++ e.key

/-- The inner norm function of normalize: runs fetch_info on the scripted
responses of the info endpoint for this entry and builds the candidate;
bitrate and size are none when the metadata fetch gave up. -/
def norm (script : List InfoResponse) (e : Entry) : Except String Candidate :=
  match fetch_info script with
  | Except.error m => Except.error m
  | Except.ok info =>
    Except.ok { id := e.id, title := e.title, duration := e.duration,
                bitrate := info.map Info.bitrate, size := info.map Info.size,
                download := download_url e }

/-- normalize maps norm over the entries; the i-th entry consumes the i-th
info script. A client exception in any metadata fetch propagates. -/
def normalize : List (List InfoResponse) → List Entry → Except String (List Candidate)
  | _, [] => Except.ok []
  | ss, e :: es =>
    match norm (ss.headD []) e with
    | Except.error m => Except.error m
    | Except.ok c =>
      match normalize ss.tail es with
      | Except.error m => Except.error m
      | Except.ok cs => Except.ok (c :: cs)

/-- The tolerance condition of select on one entry, in the source order:
duration within the window, size present, bitrate within acceptance. -/
def tolerance_pass (cfg : Cfg) (track : Track) (e : Candidate) : Bool :=
  tolerance.duration cfg track.duration e.duration
    && e.size.isSome
    && (match e.bitrate with
        | none => false
        | some b => tolerance.bitrate b)

/-- The fuzzy-name acceptance condition of select: similarity strictly
above the configured threshold. -/
def name_match (cfg : Cfg) (track : Track) (e : Candidate) : Bool :=
  decide (cfg.fuzz_threshold < fuzz_match e.title track.title)

/-- Result of select: the selected entries (the return value of the source
function) and the entries that passed tolerance but were rejected by name,
which the source collects separately and logs as filtered. -/
structure SelectResult where
  selected : List Candidate
  filtered : List Candidate
deriving Repr, DecidableEq

/-- select: tolerance filtering first, then the fuzzy-name split.
util.iterator.partition (absent from src) is modelled from the spec as the
standard partition into matching and non-matching entries. -/
def select (cfg : Cfg) (entries : List Candidate) (track : Track) : SelectResult :=
  let tolOk := entries.filter (tolerance_pass cfg track)
  let p := tolOk.partition (name_match cfg track)
  { selected := p.1, filtered := p.2 }

/-- Script of external interactions for one slider invocation: the search
responses and the per-entry info responses. -/
structure SliderScript where
  search : List FetchResponse
  info : List (List InfoResponse)
deriving Repr, DecidableEq

/-- The try-block of the slider entry point: fetch, normalize, select,
then project every surviving candidate to a Download. -/
def slider_body (cfg : Cfg) (sc : SliderScript) (track : Track) :
    Except String (List Download) :=
  match (fetch sc.search).1 with
  | Except.error m => Except.error m
  | Except.ok entries =>
    match normalize sc.info entries with
    | Except.error m => Except.error m
    | Except.ok cands =>
      Except.ok ((select cfg cands track).selected.map
        (fun c => { name := c.title, link := c.download }))

/-- The except-block of the slider entry point: any exception is logged and
the adapter yields the empty result list. -/
def catch_all (x : Except String (List Download)) : List Download :=
  match x with
  | Except.error _ => []
  | Except.ok v => v

/-- Top-level slider adapter entry point. -/
def slider (cfg : Cfg) (sc : SliderScript) (track : Track) : List Download :=
  catch_all (slider_body cfg sc track)

/-- The adapter enum of main.py. -/
inductive module where
  | slider
  | mp3co
  | zippy
deriving Repr, DecidableEq

/-- The set of all adapters, in the order of the source enum. -/
def all_modules : List module := [module.slider, module.mp3co, module.zippy]

/-- The enabled-module computation of main: the set comprehension over the
three flags, falling back to all modules when that set is empty. -/
def enabled_modules (s m z : Bool) : List module :=
  let flagged :=
    ([(module.slider, s), (module.mp3co, m), (module.zippy, z)].filter
      (fun p => p.2)).map (fun p => p.1)
  if flagged = [] then all_modules else flagged

/-- Observable reporting events of one slizzy invocation: the per-adapter
selected-entry counts, the empty-aggregate message, the final total, and
the duration-unavailable error. -/
inductive Event where
  | count (m : module) (n : Nat)
  | nothingToDo
  | total (n : Nat)
  | durationUnavailable
deriving Repr, DecidableEq

/-- Outcome of one slizzy invocation: the reported events, and the
aggregated download list (none when the track aborted before any adapter
ran). -/
structure SlizzyOutcome where
  events : List Event
  downloads : Option (List Download)
deriving Repr, DecidableEq

/-- Script of external interactions for one slizzy invocation: the
durations extracted from the google/beatport pages (none when a page
yields nothing), the slider script, and the results of the mp3co and zippy
collaborators, which are outside src. For zippy each google page yields an
optional download, matching the comprehension in main. -/
structure SlizzyScript where
  durationPages : List (Option Nat)
  sliderScript : SliderScript
  mp3coDownloads : List Download
  zippyPages : List (Option Download)
deriving Repr, DecidableEq

/-- The duration-resolution generator of main: the first page whose
extracted duration is truthy, that is present and nonzero. -/
def resolve_duration (pages : List (Option Nat)) : Option Nat :=
  pages.findSome? (fun p =>
    match p with
    | none => none
    | some d => if d = 0 then none else some d)

/-- The duration main ends up with: a falsy supplied duration (unset or
zero) triggers resolution from the pages, otherwise the supplied value is
kept. -/
def effective_duration (pages : List (Option Nat)) : Option Nat → Option Nat
  | none => resolve_duration pages
  | some d => if d = 0 then resolve_duration pages else some d

/-- The track as adapters consume it once the duration is resolved. -/
def resolved_track (track : TrackIn) (d : Nat) : Track :=
  { title := track.title, query_string := track.query_string, duration := d }

/-- Result list of one adapter, ignoring enablement. -/
def adapter_result (cfg : Cfg) (sc : SlizzyScript) (rtrack : Track) :
    module → List Download
  | module.slider => slider cfg sc.sliderScript rtrack
  | module.mp3co => sc.mp3coDownloads
  | module.zippy => sc.zippyPages.filterMap id

/-- Result list of one adapter as main computes it: empty when the adapter
is not enabled. -/
def per_adapter (cfg : Cfg) (sc : SlizzyScript) (rtrack : Track)
    (modules : List module) (m : module) : List Download :=
  if m ∈ modules then adapter_result cfg sc rtrack m else []

/-- The aggregate of the three per-adapter lists, in the fixed module
order of the source. -/
def aggregate (cfg : Cfg) (sc : SlizzyScript) (rtrack : Track)
    (modules : List module) : List Download :=
  per_adapter cfg sc rtrack modules module.slider
    ++ per_adapter cfg sc rtrack modules module.mp3co
    ++ per_adapter cfg sc rtrack modules module.zippy

/-- The slizzy function of main for one track: resolve a falsy duration
from the pages and abort the track with an error when no page yields one;
otherwise run each enabled adapter, report the three per-adapter counts,
and either report the empty aggregate or the total. The downloads field
carries the aggregate handed on to the sink. -/
def slizzy (cfg : Cfg) (sc : SlizzyScript) (track : TrackIn)
    (modules : List module) : SlizzyOutcome :=
  match effective_duration sc.durationPages track.duration with
  | none => { events := [Event.durationUnavailable], downloads := none }
  | some d =>
    let rtrack := resolved_track track d
    let sd := if module.slider ∈ modules then slider cfg sc.sliderScript rtrack else []
    let md := if module.mp3co ∈ modules then sc.mp3coDownloads else []
    let zd := if module.zippy ∈ modules then sc.zippyPages.filterMap id else []
    let downloads := sd ++ md ++ zd
    let counts := [Event.count module.slider sd.length,
                   Event.count module.mp3co md.length,
                   Event.count module.zippy zd.length]
    if downloads.isEmpty then
      { events := counts ++ [Event.nothingToDo], downloads := some [] }
    else
      { events := counts ++ [Event.total downloads.length], downloads := some downloads }

/-- The batch loop of main: slizzy is invoked for every parsed track in
order, each paired with its own collaborator script. -/
def run_batch (cfg : Cfg) (modules : List module)
    (batch : List (TrackIn × SlizzyScript)) : List SlizzyOutcome :=
  batch.map (fun p => slizzy cfg p.2 p.1 modules)

/-- A single apostrophe character, used by the error message of main. -/
def quote_mark : String := String.mk [Char.ofNat 39]

/-- The message main prints when a track fails to parse. -/
def invalid_track_msg (t : String) : String :=
  "Error: invalid track format " ++ quote_mark ++ t ++ quote_mark ++ "."

/-- The track-construction loop of main: every raw text is parsed up
front, and the first failure prints the input error and exits the whole
invocation with status 1. Track construction itself lives in the track
module, absent from src, and is abstracted as the parse argument, which
also carries the collaborator script of the parsed track. -/
def parse_tracks (p : String → Option (TrackIn × SlizzyScript)) :
    List String → Except (Nat × String) (List (TrackIn × SlizzyScript))
  | [] => Except.ok []
  | t :: ts =>
    match p t with
    | none => Except.error (1, invalid_track_msg t)
    | some tr =>
      match parse_tracks p ts with
      | Except.error e => Except.error e
      | Except.ok trs => Except.ok (tr :: trs)

/-- The duration-argument validation of parse_args: a falsy (empty)
duration string is skipped entirely as in the source truthiness test; a
truthy one with more than one track exits with status 1, and otherwise the
duration is parsed by util.time.from_str (absent from src, abstracted as
the from_str argument), an unparsable value exiting with status 1. -/
def parse_args_duration (from_str : String → Except String Nat)
    (durationArg : Option String) (tracks : List String) :
    Except (Nat × String) (Option Nat) :=
  match durationArg with
  | none => Except.ok none
  | some ds =>
    if ds = "" then Except.ok none
    else if 1 < tracks.length then
      Except.error (1, "Error: with the duration parameter, only one track may be specified.")
    else
      match from_str ds with
      | Except.error e => Except.error (1, "Error: " ++ e ++ ".")
      | Except.ok d => Except.ok (some d)

/-- Result of one whole invocation of main: either an early exit with a
status code and message, or the outcomes of the processed batch. -/
inductive MainResult where
  | exited (code : Nat) (msg : String)
  | completed (outcomes : List SlizzyOutcome)
deriving Repr, DecidableEq

/-- The dl and lns path of main: validate the duration argument, construct
every track, then run the batch. The parse argument abstracts Track
construction, taking the validated duration like the source constructor
does. -/
def full_main (cfg : Cfg) (modules : List module)
    (from_str : String → Except String Nat)
    (P : Option Nat → String → Option (TrackIn × SlizzyScript))
    (durationArg : Option String) (raws : List String) : MainResult :=
  match parse_args_duration from_str durationArg raws with
  | Except.error e => MainResult.exited e.1 e.2
  | Except.ok dur =>
    match parse_tracks (P dur) raws with
    | Except.error e => MainResult.exited e.1 e.2
    | Except.ok batch => MainResult.completed (run_batch cfg modules batch)

/-! Concrete sample inputs used by witnesses and counterexamples. -/

/-- Sample configuration. -/
def cfg0 : Cfg := { duration_delta := 5, fuzz_threshold := 60 }

/-- Sample size value. -/
def size0 : Size := { value := 9, mult := "MB" }

/-- Sample audio groups for a well-formed search body. -/
def gs0 : List (String × List RawAudio) :=
  [("k1", [{ id := "a1", ext := "e1", duration := 180, tit_art := "Artist - Title" }])]

/-- Sample resolved track. -/
def track0 : Track :=
  { title := "Artist - Title", query_string := "artist title", duration := 180 }

/-- Sample input track with a supplied duration. -/
def trackIn0 : TrackIn :=
  { title := "Artist - Title", query_string := "artist title", duration := some 180 }

/-- Sample input track with no duration. -/
def trackIn1 : TrackIn :=
  { title := "B", query_string := "b", duration := none }

/-- Sample slider script with one successful search response and one
successful metadata response. -/
def sliderScript0 : SliderScript :=
  { search := [FetchResponse.audios gs0], info := [[InfoResponse.payload 320 size0]] }

/-- Sample slider script whose search fails with a non-200 status. -/
def errScript0 : SliderScript :=
  { search := [FetchResponse.err 500], info := [] }

/-- Sample slizzy script with a resolvable duration. -/
def sc0 : SlizzyScript :=
  { durationPages := [some 180], sliderScript := sliderScript0,
    mp3coDownloads := [], zippyPages := [] }

/-- Sample slizzy script whose pages never yield a usable duration: one
page yields nothing and one yields the falsy zero. -/
def scFail : SlizzyScript :=
  { durationPages := [none, some 0], sliderScript := sliderScript0,
    mp3coDownloads := [], zippyPages := [] }

/-- Sample candidate with unknown bitrate. -/
def e0 : Candidate :=
  { id := "x", title := "t", duration := 180, bitrate := none,
    size := some size0, download := "u" }

/-- Sample parse function: the text good parses, everything else fails. -/
def parse0 : Option Nat → String → Option (TrackIn × SlizzyScript) :=
  fun _ t => if t = "good" then some (trackIn0, sc0) else none

/-- Sample parse function accepting every text. -/
def parseAll : Option Nat → String → Option (TrackIn × SlizzyScript) :=
  fun _ _ => some (trackIn0, sc0)

/-- Sample duration parser. -/
def from_str0 : String → Except String Nat :=
  fun _ => Except.ok 180

/-! Theorems. -/

/-- Arithmetic bound used for the fuzzy score. -/
theorem hundred_mul_div_le (i u : Nat) (h : i ≤ u) : 100 * i / u ≤ 100 := by
  rcases Nat.eq_zero_or_pos u with hu | hu
  · subst hu; simp
  · calc 100 * i / u ≤ 100 * u / u :=
          Nat.div_le_div_right (Nat.mul_le_mul_left _ h)
    _ = 100 := by rw [Nat.mul_div_assoc 100 dvd_rfl, Nat.div_self hu, Nat.mul_one]

/-- The fuzzy score never exceeds 100. -/
theorem fuzz_match_le_hundred (a b : String) : fuzz_match a b ≤ 100 := by
  simp only [fuzz_match]
  split
  · exact le_refl 100
  · refine hundred_mul_div_le _ _ ?_
    rw [List.length_append]
    exact le_trans (List.length_filter_le _ _) (Nat.le_add_right _ _)

/-- The fuzzy score of a string against itself is exactly 100. -/
theorem fuzz_match_self (s : String) : fuzz_match s s = 100 := by
  have h1 : ((tokens s).dedup.filter (fun t => t ∈ (tokens s).dedup))
      = (tokens s).dedup := by
    apply List.filter_eq_self.mpr
    intro a ha
    simpa using ha
  have h2 : ((tokens s).dedup.filter (fun t => t ∉ (tokens s).dedup)) = [] := by
    apply List.filter_eq_nil_iff.mpr
    intro a ha
    simp [ha]
  simp only [fuzz_match, h1, h2, List.append_nil]
  rcases Nat.eq_zero_or_pos (tokens s).dedup.length with h | h
  · simp [h]
  · rw [if_neg (Nat.pos_iff_ne_zero.mp h), Nat.mul_div_assoc 100 dvd_rfl,
        Nat.div_self h, Nat.mul_one]

/-- C9: the fuzzy title similarity is a pure Lean function, hence
deterministic and side-effect-free; every score is at most 100, a string
against itself scores exactly 100 (the maximum possible), and appending
trailing text to an exact match never raises the score above that of the
exact match. -/
theorem C9_fuzzy :
    (∀ a b : String, fuzz_match a b ≤ 100)
  ∧ (∀ s : String, fuzz_match s s = 100)
  ∧ (∀ s t : String, fuzz_match (s ++ t) s ≤ fuzz_match s s) :=
  ⟨fuzz_match_le_hundred, fuzz_match_self, fun s t => by
    rw [fuzz_match_self s]
    exact fuzz_match_le_hundred (s ++ t) s⟩

/-- C4: select applies the duration and bitrate tolerance filter first and
the fuzzy name comparison only to the tolerance-passing candidates; the
tolerance-passing candidates rejected by name are collected in the
filtered field, which the source reports, and the selected list contains
exactly the candidates that pass both tolerance checks and score strictly
above the configured threshold. -/
theorem C4_select_order (cfg : Cfg) (entries : List Candidate) (track : Track) :
    (select cfg entries track).selected
      = (entries.filter (tolerance_pass cfg track)).filter (name_match cfg track)
  ∧ (select cfg entries track).filtered
      = (entries.filter (tolerance_pass cfg track)).filter
          (fun e => ! name_match cfg track e)
  ∧ ∀ e : Candidate,
      e ∈ (select cfg entries track).selected
        ↔ e ∈ entries ∧ tolerance_pass cfg track e = true
            ∧ cfg.fuzz_threshold < fuzz_match e.title track.title := by
  refine ⟨?_, ?_, ?_⟩
  · simp [select, List.partition_eq_filter_filter]
  · simp [select, List.partition_eq_filter_filter]
  · intro e
    simp only [select, List.partition_eq_filter_filter, List.mem_filter, name_match,
               decide_eq_true_eq]
    tauto

/-- C5: a candidate whose bitrate is unknown (absent or zero) or whose
size is unknown is rejected by select: it appears neither among the
selected candidates nor among the name-filtered ones, because it already
fails the tolerance condition. -/
theorem C5_unknown_metadata (cfg : Cfg) (entries : List Candidate)
    (track : Track) (e : Candidate)
    (h : e.bitrate = none ∨ e.bitrate = some 0 ∨ e.size = none) :
    e ∉ (select cfg entries track).selected
  ∧ e ∉ (select cfg entries track).filtered := by
  have htol : tolerance_pass cfg track e = false := by
    rcases h with h | h | h
    · simp [tolerance_pass, h]
    · simp [tolerance_pass, tolerance.bitrate, h]
    · simp [tolerance_pass, h]
  constructor <;>
  · intro hmem
    simp [select, List.partition_eq_filter_filter, List.mem_filter, htol] at hmem

/-- Witness for C5 at a concrete candidate with unknown bitrate. -/
theorem C5_unknown_metadata_witness :
    e0 ∉ (select cfg0 [e0] track0).selected
  ∧ e0 ∉ (select cfg0 [e0] track0).filtered :=
  C5_unknown_metadata cfg0 [e0] track0 e0 (Or.inl rfl)

/-- C2: the slider entry point absorbs every failure of its pipeline: an
error from the fetch stage or from the normalize stage yields the empty
result list, and a successful pipeline yields one Download per surviving
candidate, named by the candidate title and linked to its download uri. -/
theorem C2_boundary (cfg : Cfg) (sc : SliderScript) (track : Track) :
    (∀ msg, (fetch sc.search).1 = Except.error msg → slider cfg sc track = [])
  ∧ (∀ entries msg, (fetch sc.search).1 = Except.ok entries →
      normalize sc.info entries = Except.error msg → slider cfg sc track = [])
  ∧ (∀ entries cands, (fetch sc.search).1 = Except.ok entries →
      normalize sc.info entries = Except.ok cands →
      slider cfg sc track
        = (select cfg cands track).selected.map
            (fun c => { name := c.title, link := c.download })) := by
  refine ⟨?_, ?_, ?_⟩
  · intro msg h
    simp [slider, slider_body, catch_all, h]
  · intro entries msg h1 h2
    simp [slider, slider_body, catch_all, h1, h2]
  · intro entries cands h1 h2
    simp [slider, slider_body, catch_all, h1, h2]

/-- Witness for C2: a search that fails with a non-200 status makes the
adapter return the empty list. -/
theorem C2_boundary_witness : slider cfg0 errScript0 track0 = [] :=
  (C2_boundary cfg0 errScript0 track0).1 ("http code " ++ toString 500 ++ ".") rfl

/-- The fetch loop consumes every transient integer-body response and
returns the entries of the final well-formed body, one attempt per
consumed response plus the final one. -/
theorem fetch_transient (gs : List (String × List RawAudio)) :
    ∀ script : List FetchResponse,
      (∀ r ∈ script, is_transient r = true) →
      fetch (script ++ [FetchResponse.audios gs])
        = (Except.ok (mk_entries gs), script.length + 1)
  | [], _ => rfl
  | r :: rest, h => by
    have hr : is_transient r = true := h r (List.mem_cons_self r rest)
    have hrest : ∀ x ∈ rest, is_transient x = true :=
      fun x hx => h x (List.mem_cons_of_mem r hx)
    cases r with
    | intBody k =>
      have ih := fetch_transient gs rest hrest
      simp [fetch, ih]
    | err c => simp [is_transient] at hr
    | raised m => simp [is_transient] at hr
    | audios g => simp [is_transient] at hr

/-- C3: for every scripted sequence of transient (integer-body) responses
followed by one well-formed success, the retrying fetch returns the
success value with the attempt count equal to the number of transient
responses plus one; and a response with a non-success http status makes
the fetch fail on that first attempt, the rest of the script never being
consulted. -/
theorem C3_retry (script : List FetchResponse)
    (gs : List (String × List RawAudio))
    (h : ∀ r ∈ script, is_transient r = true) :
    fetch (script ++ [FetchResponse.audios gs])
      = (Except.ok (mk_entries gs), script.length + 1)
  ∧ ∀ (c : Nat) (rest : List FetchResponse),
      fetch (FetchResponse.err c :: rest)
        = (Except.error ("http code " ++ toString c ++ "."), 1) :=
  ⟨fetch_transient gs script h, fun _ _ => rfl⟩

/-- Witness for C3: two transient responses then a success give the
entries after three attempts; an immediate 404 fails on the first attempt
with a pending transient response never consulted. -/
theorem C3_retry_witness :
    fetch ([FetchResponse.intBody 0, FetchResponse.intBody 5]
        ++ [FetchResponse.audios gs0])
      = (Except.ok (mk_entries gs0), 3)
  ∧ fetch (FetchResponse.err 404 :: [FetchResponse.intBody 9])
      = (Except.error ("http code " ++ toString 404 ++ "."), 1) :=
  ⟨(C3_retry [FetchResponse.intBody 0, FetchResponse.intBody 5] gs0
      (by decide)).1,
   (C3_retry [] gs0 (by decide)).2 404 [FetchResponse.intBody 9]⟩

/-- C6: a track whose duration is falsy (unset or zero) and whose
collaborator pages yield no usable duration aborts with the
duration-unavailable error, no adapter contributing and no default being
assumed, while every other track of the batch, before or after it, is
still processed by the batch loop. -/
theorem C6_duration_abort (cfg : Cfg) (modules : List module)
    (track : TrackIn) (sc : SlizzyScript)
    (hunset : track.duration = none ∨ track.duration = some 0)
    (hfail : resolve_duration sc.durationPages = none) :
    slizzy cfg sc track modules
      = { events := [Event.durationUnavailable], downloads := none }
  ∧ ∀ pre post : List (TrackIn × SlizzyScript),
      run_batch cfg modules (pre ++ (track, sc) :: post)
        = run_batch cfg modules pre
            ++ { events := [Event.durationUnavailable], downloads := none }
              :: run_batch cfg modules post := by
  have h1 : effective_duration sc.durationPages track.duration = none := by
    rcases hunset with h | h <;> simp [effective_duration, h, hfail]
  have h2 : slizzy cfg sc track modules
      = { events := [Event.durationUnavailable], downloads := none } := by
    simp [slizzy, h1]
  refine ⟨h2, ?_⟩
  intro pre post
  simp [run_batch, h2]

/-- Witness for C6: a track without duration whose pages yield nothing and
a falsy zero aborts alone; tracks before and after it in the batch are
still processed. -/
theorem C6_duration_abort_witness :
    slizzy cfg0 scFail trackIn1 all_modules
      = { events := [Event.durationUnavailable], downloads := none }
  ∧ run_batch cfg0 all_modules
        ([(trackIn0, sc0)] ++ (trackIn1, scFail) :: [(trackIn0, sc0)])
      = run_batch cfg0 all_modules [(trackIn0, sc0)]
          ++ { events := [Event.durationUnavailable], downloads := none }
            :: run_batch cfg0 all_modules [(trackIn0, sc0)] :=
  ⟨(C6_duration_abort cfg0 all_modules trackIn1 scFail (Or.inl rfl) rfl).1,
   (C6_duration_abort cfg0 all_modules trackIn1 scFail (Or.inl rfl) rfl).2
     [(trackIn0, sc0)] [(trackIn0, sc0)]⟩

/-- C7: with no per-source flag given the enabled set is all three
adapters, and with a non-empty selection of flags exactly the flagged
adapters are enabled. -/
theorem C7_default_modules :
    enabled_modules false false false = all_modules
  ∧ ∀ s m z : Bool, (s || m || z) = true →
      ((module.slider ∈ enabled_modules s m z) ↔ s = true)
    ∧ ((module.mp3co ∈ enabled_modules s m z) ↔ m = true)
    ∧ ((module.zippy ∈ enabled_modules s m z) ↔ z = true) := by
  constructor
  · rfl
  · decide

/-- Witness for C7 at the selection enabling only the slider flag. -/
theorem C7_default_modules_witness :
    ((module.slider ∈ enabled_modules true false false) ↔ true = true)
  ∧ ((module.mp3co ∈ enabled_modules true false false) ↔ false = true)
  ∧ ((module.zippy ∈ enabled_modules true false false) ↔ false = true) :=
  C7_default_modules.2 true false false (by decide)

/-- Shape of the outcome built from three per-adapter lists: the if on the
empty aggregate distributes over the two outcome fields. -/
theorem aggregate_outcome (sd md zd : List Download) :
    (if (sd ++ md ++ zd).isEmpty then
       ({ events := [Event.count module.slider sd.length,
                     Event.count module.mp3co md.length,
                     Event.count module.zippy zd.length] ++ [Event.nothingToDo],
          downloads := some [] } : SlizzyOutcome)
     else
       { events := [Event.count module.slider sd.length,
                    Event.count module.mp3co md.length,
                    Event.count module.zippy zd.length]
                    ++ [Event.total (sd ++ md ++ zd).length],
         downloads := some (sd ++ md ++ zd) }).downloads
      = some (sd ++ md ++ zd)
  ∧ (if (sd ++ md ++ zd).isEmpty then
       ({ events := [Event.count module.slider sd.length,
                     Event.count module.mp3co md.length,
                     Event.count module.zippy zd.length] ++ [Event.nothingToDo],
          downloads := some [] } : SlizzyOutcome)
     else
       { events := [Event.count module.slider sd.length,
                    Event.count module.mp3co md.length,
                    Event.count module.zippy zd.length]
                    ++ [Event.total (sd ++ md ++ zd).length],
         downloads := some (sd ++ md ++ zd) }).events
      = [Event.count module.slider sd.length,
         Event.count module.mp3co md.length,
         Event.count module.zippy zd.length]
        ++ (if (sd ++ md ++ zd).isEmpty then [Event.nothingToDo]
            else [Event.total (sd ++ md ++ zd).length]) := by
  cases hB : (sd ++ md ++ zd).isEmpty with
  | true =>
    have hnil : sd ++ md ++ zd = [] := by
      simpa using hB
    simp [hB, hnil]
  | false => simp [hB]

/-- C8: for a track whose duration is resolved, the aggregate handed on is
the concatenation of the three per-adapter lists in the fixed adapter
order (the empty list standing for a disabled adapter), so entries of one
adapter are contiguous and keep their relative order; the report carries
one count per adapter, zero when disabled or empty, followed by the total
count when the aggregate is non-empty and by the nothing-to-do message
when it is empty. -/
theorem C8_aggregation (cfg : Cfg) (sc : SlizzyScript) (modules : List module)
    (track : TrackIn) (d : Nat)
    (hd : effective_duration sc.durationPages track.duration = some d) :
    (slizzy cfg sc track modules).downloads
      = some (aggregate cfg sc (resolved_track track d) modules)
  ∧ (slizzy cfg sc track modules).events
      = [Event.count module.slider
           (per_adapter cfg sc (resolved_track track d) modules module.slider).length,
         Event.count module.mp3co
           (per_adapter cfg sc (resolved_track track d) modules module.mp3co).length,
         Event.count module.zippy
           (per_adapter cfg sc (resolved_track track d) modules module.zippy).length]
        ++ (if (aggregate cfg sc (resolved_track track d) modules).isEmpty
            then [Event.nothingToDo]
            else [Event.total
                    (aggregate cfg sc (resolved_track track d) modules).length]) := by
  unfold slizzy
  simp only [hd]
  exact aggregate_outcome _ _ _

/-- Witness for C8 at a concrete resolved track with all three adapters
enabled. -/
theorem C8_aggregation_witness :
    (slizzy cfg0 sc0 trackIn0 all_modules).downloads
      = some (aggregate cfg0 sc0 (resolved_track trackIn0 180) all_modules)
  ∧ (slizzy cfg0 sc0 trackIn0 all_modules).events
      = [Event.count module.slider
           (per_adapter cfg0 sc0 (resolved_track trackIn0 180) all_modules
             module.slider).length,
         Event.count module.mp3co
           (per_adapter cfg0 sc0 (resolved_track trackIn0 180) all_modules
             module.mp3co).length,
         Event.count module.zippy
           (per_adapter cfg0 sc0 (resolved_track trackIn0 180) all_modules
             module.zippy).length]
        ++ (if (aggregate cfg0 sc0 (resolved_track trackIn0 180) all_modules).isEmpty
            then [Event.nothingToDo]
            else [Event.total
                    (aggregate cfg0 sc0 (resolved_track trackIn0 180)
                      all_modules).length]) :=
  C8_aggregation cfg0 sc0 all_modules trackIn0 180 rfl

/-- The track-construction loop errors out at the first raw text that
fails to parse, carrying exit status 1 and the invalid-track message for
that text. -/
theorem parse_tracks_first_bad (p : String → Option (TrackIn × SlizzyScript)) :
    ∀ raws : List String, (∃ t ∈ raws, p t = none) →
      ∃ t, t ∈ raws ∧ p t = none
        ∧ parse_tracks p raws = Except.error (1, invalid_track_msg t)
  | [], h => absurd h (by simp)
  | r :: rest, h => by
    cases hr : p r with
    | none =>
      exact ⟨r, List.mem_cons_self r rest, hr, by simp [parse_tracks, hr]⟩
    | some v =>
      have hrest : ∃ t ∈ rest, p t = none := by
        rcases h with ⟨t, ht, hpt⟩
        rcases List.mem_cons.mp ht with h1 | h1
        · subst h1
          rw [hr] at hpt
          exact absurd hpt (by simp)
        · exact ⟨t, h1, hpt⟩
      rcases parse_tracks_first_bad p rest hrest with ⟨t, ht, hpt, heq⟩
      exact ⟨t, List.mem_cons_of_mem r ht, hpt, by simp [parse_tracks, hr, heq]⟩

/-- C1 counterexample: in a batch of two tracks where the second raw text
is unparseable, the whole invocation exits with status 1 and the parseable
first track is never processed, refuting the claim that the remaining
tracks of a multi-track batch are still processed. -/
theorem C1_counterexample :
    full_main cfg0 all_modules from_str0 parse0 none ["good", "bad"]
      = MainResult.exited 1 (invalid_track_msg "bad")
  ∧ ∀ outs : List SlizzyOutcome,
      full_main cfg0 all_modules from_str0 parse0 none ["good", "bad"]
        ≠ MainResult.completed outs := by
  have h1 : full_main cfg0 all_modules from_str0 parse0 none ["good", "bad"]
      = MainResult.exited 1 (invalid_track_msg "bad") := by rfl
  exact ⟨h1, fun outs hc => MainResult.noConfusion (h1.symm.trans hc)⟩

/-- C1 amended: whenever any raw track text of the batch is unparseable,
the input error for the first such text is reported and the whole
invocation exits with status 1, no track of the batch being processed. -/
theorem C1_amended (cfg : Cfg) (modules : List module)
    (from_str : String → Except String Nat)
    (P : Option Nat → String → Option (TrackIn × SlizzyScript))
    (raws : List String)
    (h : ∃ t ∈ raws, P none t = none) :
    ∃ t, t ∈ raws ∧ P none t = none
      ∧ full_main cfg modules from_str P none raws
          = MainResult.exited 1 (invalid_track_msg t) := by
  rcases parse_tracks_first_bad (P none) raws h with ⟨t, ht, hpt, heq⟩
  exact ⟨t, ht, hpt, by simp [full_main, parse_args_duration, heq]⟩

/-- Witness for the amended C1: the batch whose first text is unparseable
exits with status 1 and that text in the message. -/
theorem C1_amended_witness :
    full_main cfg0 all_modules from_str0 parse0 none ["bad", "good"]
      = MainResult.exited 1 (invalid_track_msg "bad") := by
  rcases C1_amended cfg0 all_modules from_str0 parse0 ["bad", "good"]
      ⟨"bad", by simp, rfl⟩ with ⟨t, ht, hpt, heq⟩
  rcases List.mem_cons.mp ht with h1 | h1
  · subst h1
    exact heq
  · simp only [List.mem_cons, List.not_mem_nil, or_false] at h1
    subst h1
    simp [parse0] at hpt

/-- C10 counterexample: supplying the duration option with an empty value
together with two tracks is not rejected, because the source guards the
check with a truthiness test on the duration string: the invocation runs
the batch instead of exiting. -/
theorem C10_counterexample :
    full_main cfg0 all_modules from_str0 parseAll (some "") ["good", "good"]
      = MainResult.completed
          (run_batch cfg0 all_modules [(trackIn0, sc0), (trackIn0, sc0)])
  ∧ ∀ (c : Nat) (msg : String),
      full_main cfg0 all_modules from_str0 parseAll (some "") ["good", "good"]
        ≠ MainResult.exited c msg := by
  have h1 : full_main cfg0 all_modules from_str0 parseAll (some "") ["good", "good"]
      = MainResult.completed
          (run_batch cfg0 all_modules [(trackIn0, sc0), (trackIn0, sc0)]) := by rfl
  exact ⟨h1, fun c msg hc => MainResult.noConfusion (h1.symm.trans hc)⟩

/-- C10 amended: supplying a non-empty duration value together with more
than one track makes the invocation exit with status 1 and the
single-track error message, for every parse function, hence before any
track is constructed or processed. -/
theorem C10_duration_single (cfg : Cfg) (modules : List module)
    (from_str : String → Except String Nat)
    (P : Option Nat → String → Option (TrackIn × SlizzyScript))
    (ds : String) (raws : List String)
    (hds : ds ≠ "") (h : 1 < raws.length) :
    full_main cfg modules from_str P (some ds) raws
      = MainResult.exited 1
          "Error: with the duration parameter, only one track may be specified." := by
  simp [full_main, parse_args_duration, hds, h]

/-- Witness for the amended C10 at a concrete duration value and a
two-track batch. -/
theorem C10_duration_single_witness :
    full_main cfg0 all_modules from_str0 parseAll (some "3:00") ["good", "good"]
      = MainResult.exited 1
          "Error: with the duration parameter, only one track may be specified." :=
  C10_duration_single cfg0 all_modules from_str0 parseAll "3:00" ["good", "good"]
    (by decide) (by decide)

end Slizzy
